import Mathlib

/-!
Shallow embedding of the collection logic of a Docker Swarm Prometheus
exporter.  One scrape pass (`Collect`) is modelled as a pure function from
the API responses observed during that pass (`DockerAPI`) to the list of
metric samples written to the output channel, in emission order.

Record fields keep the Docker API field names the source consults
(`State`, `NodeID`, `Spec.Name`, ...) in lower-case form; Go maps are
modelled as association lists with overwrite-on-insert semantics, so the
key set matches the Go map's key set and values match the last write.
A fallible API call is an `Option`: `none` is a call that returned an
error, `some xs` a call that returned the list `xs`.
-/

set_option autoImplicit false

namespace DockerSwarmExporter

/-- A container record from `ContainerList`; only its `State` string is read. -/
structure ContainerRec where
  state : String
  deriving Repr, DecidableEq

/-- `swarm.ReplicatedService`: the `Replicas` field is a nullable pointer. -/
structure ReplicatedSpec where
  replicas : Option Nat
  deriving Repr, DecidableEq

/-- `swarm.ServiceMode`: `Replicated` and `Global` are nullable pointers;
for `Global` only presence matters. -/
structure ServiceMode where
  replicated : Option ReplicatedSpec
  globalMode : Bool
  deriving Repr, DecidableEq

/-- A service record: identity, spec name, mode and the spec labels map. -/
structure ServiceRec where
  id : String
  name : String
  mode : ServiceMode
  labels : List (String × String)
  deriving Repr, DecidableEq

/-- A task record: owning service, owning node, and `Status.State`. -/
structure TaskRec where
  serviceID : String
  nodeID : String
  state : String
  deriving Repr, DecidableEq

/-- A node record: identity, `Description.Hostname`, and `Status.State`. -/
structure NodeRec where
  id : String
  hostname : String
  state : String
  deriving Repr, DecidableEq

/-- One emitted metric sample: descriptor name, label values, gauge value.
All values produced by the collector are small counts, so `Nat` represents
the `float64` exactly. -/
structure Sample where
  name : String
  labels : List String
  value : Nat
  deriving Repr, DecidableEq

/-- The API responses observed by one collection pass.  `taskListFor` is the
task list filtered by a service identity; `taskListAll` the unfiltered task
list; `info` the daemon's `Swarm.LocalNodeState` (none = the info call
failed).  Each listing call has a fixed response within the pass. -/
structure DockerAPI where
  containerList : Option (List ContainerRec)
  info : Option String
  serviceList : Option (List ServiceRec)
  taskListFor : String → Option (List TaskRec)
  taskListAll : Option (List TaskRec)
  nodeList : Option (List NodeRec)

/-- One step of the container classification switch: exactly one of the
three buckets is incremented when the state matches a recognised case,
and none otherwise (the Go switch has no default arm). -/
def classifyContainer (acc : Nat × Nat × Nat) (c : ContainerRec) : Nat × Nat × Nat :=
  if c.state = "running" then (acc.1 + 1, acc.2.1, acc.2.2)
  else if c.state = "exited" ∨ c.state = "created" ∨ c.state = "dead" then
    (acc.1, acc.2.1 + 1, acc.2.2)
  else if c.state = "paused" then (acc.1, acc.2.1, acc.2.2 + 1)
  else acc

/-- The (running, stopped, paused) counters after the classification loop. -/
def containerBuckets (cs : List ContainerRec) : Nat × Nat × Nat :=
  cs.foldl classifyContainer (0, 0, 0)

/-- `collectContainerMetrics`: on a listing error nothing is emitted;
otherwise the three container gauges. -/
def collectContainerMetrics (resp : Option (List ContainerRec)) : List Sample :=
  match resp with
  | none => []
  | some cs =>
    let b := containerBuckets cs
    [⟨"docker_containers_running_total", [], b.1⟩,
     ⟨"docker_containers_stopped_total", [], b.2.1⟩,
     ⟨"docker_containers_paused_total", [], b.2.2⟩]

/-- `collectImageMetrics`: the image gauge is a hard-coded zero stub. -/
def collectImageMetrics : List Sample :=
  [⟨"docker_images_total", [], 0⟩]

/-- Nodes whose `Status.State` is `ready` (`swarm.NodeStateReady`). -/
def countReadyNodes (ns : List NodeRec) : Nat :=
  (ns.filter (fun n => n.state = "ready")).length

/-- The `desiredReplicas` computation for one service: a present replicated
target is used verbatim; otherwise a global service counts ready nodes from
a fresh node listing (0 if that listing fails); otherwise 0. -/
def desiredReplicas (nodeResp : Option (List NodeRec)) (m : ServiceMode) : Nat :=
  match m.replicated.bind (fun r => r.replicas) with
  | some n => n
  | none =>
    if m.globalMode then
      match nodeResp with
      | some ns => countReadyNodes ns
      | none => 0
    else 0

/-- One iteration of the per-service loop: a task-listing error `continue`s
(no samples for that service); otherwise the running-task gauge and the
desired-task gauge, both labelled with the service name. -/
def serviceSamples (api : DockerAPI) (s : ServiceRec) : List Sample :=
  match api.taskListFor s.id with
  | none => []
  | some tasks =>
    [⟨"docker_tasks_running_total", [s.name],
       (tasks.filter (fun t => t.state = "running")).length⟩,
     ⟨"docker_tasks_desired_total", [s.name], desiredReplicas api.nodeList s.mode⟩]

/-- The service-listing block: on error nothing; otherwise the service-count
gauge followed by the per-service loop output. -/
def servicesPart (api : DockerAPI) : List Sample :=
  match api.serviceList with
  | none => []
  | some services =>
    ⟨"docker_services_total", [], services.length⟩ :: services.flatMap (serviceSamples api)

/-- The node-metrics block: on a listing error neither gauge; otherwise the
node-count and ready-node-count gauges. -/
def nodesPart (nodeResp : Option (List NodeRec)) : List Sample :=
  match nodeResp with
  | none => []
  | some ns =>
    [⟨"docker_nodes_total", [], ns.length⟩,
     ⟨"docker_nodes_active_total", [], countReadyNodes ns⟩]

/-- First-match lookup in a label map. -/
def lookupAssoc {β : Type} : List (String × β) → String → Option β
  | [], _ => none
  | (k0, v0) :: rest, k => if k0 = k then some v0 else lookupAssoc rest k

/-- The stack-namespace label of a service, if present. -/
def stackLabel (s : ServiceRec) : Option String :=
  lookupAssoc s.labels "com.docker.stack.namespace"

/-- Set-insert for the key list of a Go map (no-op on a present key). -/
def insertKey (keys : List String) (k : String) : List String :=
  if k ∈ keys then keys else keys ++ [k]

/-- Set-insert of every element of `xs`, in order. -/
def insertAll (acc : List String) (xs : List String) : List String :=
  xs.foldl insertKey acc

/-- The key set of the `stackMap` built from the (possibly nil) service
list: every distinct stack-namespace label value, in first-seen order. -/
def stackMapKeys (services : List ServiceRec) : List String :=
  services.foldl
    (fun acc s =>
      match stackLabel s with
      | some stackName => insertKey acc stackName
      | none => acc) []

/-- The stack block: the distinct-stack-count gauge, emitted even when the
service listing failed (the loop then ranges over the nil slice). -/
def stacksPart (services : List ServiceRec) : List Sample :=
  [⟨"docker_stacks_total", [], (stackMapKeys services).length⟩]

/-- Map write with overwrite semantics (`m[k] = v`). -/
def setKey {β : Type} : List (String × β) → String → β → List (String × β)
  | [], k, v => [(k, v)]
  | (k0, v0) :: rest, k, v =>
    if k0 = k then (k0, v) :: rest else (k0, v0) :: setKey rest k v

/-- Increment a present key (`m[k]++`); absent keys are untouched. -/
def bumpKey : List (String × Nat) → String → List (String × Nat)
  | [], _ => []
  | (k0, v0) :: rest, k =>
    if k0 = k then (k0, v0 + 1) :: rest else (k0, v0) :: bumpKey rest k

/-- `nodeContainers` after its initialisation loop: a zero counter for every
node of the fetched list (ready or not; duplicate identities collapse as in
a Go map). -/
def initNodeCounters (nodes : List NodeRec) : List (String × Nat) :=
  nodes.foldl (fun acc n => setKey acc n.id 0) []

/-- `nodeNames` after its initialisation loop. -/
def initNodeNames (nodes : List NodeRec) : List (String × String) :=
  nodes.foldl (fun acc n => setKey acc n.id n.hostname) []

/-- One iteration of the task-counting loop: a running task whose owning
node is a key of the counter map bumps that counter; any other task is
ignored. -/
def stepRun (acc : List (String × Nat)) (t : TaskRec) : List (String × Nat) :=
  if t.state = "running" then
    match lookupAssoc acc t.nodeID with
    | some _ => bumpKey acc t.nodeID
    | none => acc
  else acc

/-- The task-counting loop over the unfiltered task list. -/
def countRunningPerNode (counters : List (String × Nat)) (tasks : List TaskRec) :
    List (String × Nat) :=
  tasks.foldl stepRun counters

/-- The per-node block: skipped when the node list is empty or its fetch
failed; skipped entirely when the unfiltered task listing fails; otherwise
the all-nodes total gauge followed by one labelled gauge per counter entry. -/
def allNodesPart (api : DockerAPI) : List Sample :=
  let nodes := (api.nodeList).getD []
  if 0 < nodes.length then
    match api.taskListAll with
    | none => []
    | some tasks =>
      let names := initNodeNames nodes
      let counters := countRunningPerNode (initNodeCounters nodes) tasks
      ⟨"docker_containers_running_total_all_nodes", [],
          (counters.map (fun p => p.2)).sum⟩ ::
        counters.map
          (fun p =>
            ⟨"docker_containers_running_all_nodes_total",
              [p.1, (lookupAssoc names p.1).getD ""], p.2⟩)
  else []

/-- `collectSwarmMetrics`: the four blocks in source emission order. -/
def collectSwarmMetrics (api : DockerAPI) : List Sample :=
  servicesPart api ++ nodesPart api.nodeList ++
    stacksPart ((api.serviceList).getD []) ++ allNodesPart api

/-- The swarm-mode check in `Collect`: an info failure returns early,
and swarm metrics run only when the local node state is `active`. -/
def swarmGate (api : DockerAPI) : List Sample :=
  match api.info with
  | none => []
  | some st => if st = "active" then collectSwarmMetrics api else []

/-- `Collect`: container metrics, then the image stub, then — whatever the
outcome of the container step — the info check and possibly swarm metrics. -/
def Collect (api : DockerAPI) : List Sample :=
  collectContainerMetrics api.containerList ++ collectImageMetrics ++ swarmGate api

/-- Sum of the three classification buckets. -/
def bucketSum (b : Nat × Nat × Nat) : Nat := b.1 + b.2.1 + b.2.2

/-! Concrete fixtures used by counterexamples and witnesses. -/

/-- Five containers: three running, one exited, one paused. -/
def cList5 : List ContainerRec :=
  [⟨"running"⟩, ⟨"running"⟩, ⟨"running"⟩, ⟨"exited"⟩, ⟨"paused"⟩]

/-- A pass in which every API call fails. -/
def apiFail : DockerAPI :=
  { containerList := none, info := none, serviceList := none,
    taskListFor := fun _ => none, taskListAll := none, nodeList := none }

/-- A replicated-mode service with a declared target of 3 replicas. -/
def svcWeb : ServiceRec :=
  ⟨"s1", "web", ⟨some ⟨some 3⟩, false⟩, [("com.docker.stack.namespace", "mystack")]⟩

/-- A global-mode service. -/
def svcCache : ServiceRec :=
  ⟨"s2", "cache", ⟨none, true⟩, []⟩

/-- A replicated-mode service whose replica pointer is absent. -/
def svcOdd : ServiceRec :=
  ⟨"s3", "odd", ⟨some ⟨none⟩, false⟩, []⟩

/-- Two nodes, one ready and one down. -/
def nsMixed : List NodeRec :=
  [⟨"n1", "h1", "ready"⟩, ⟨"n2", "h2", "down"⟩]

/-- Tasks: one running on the known node n1, one running on an unknown
node nX, one shut down on n2. -/
def tsMixed : List TaskRec :=
  [⟨"s1", "n1", "running"⟩, ⟨"s1", "nX", "running"⟩, ⟨"s2", "n2", "shutdown"⟩]

/-- A swarm-active pass with both services, mixed nodes and mixed tasks. -/
def apiMain : DockerAPI :=
  { containerList := some cList5, info := some "active",
    serviceList := some [svcWeb, svcCache],
    taskListFor := fun sid =>
      if sid = "s1" then some [⟨"s1", "n1", "running"⟩, ⟨"s1", "n1", "shutdown"⟩]
      else if sid = "s2" then some [⟨"s2", "n1", "running"⟩]
      else none,
    taskListAll := some tsMixed, nodeList := some nsMixed }

/-- A swarm-active pass whose node listing fails while a global service and
its task listing succeed. -/
def apiNoNodes : DockerAPI :=
  { containerList := none, info := some "active",
    serviceList := some [svcCache],
    taskListFor := fun sid => if sid = "s2" then some [] else none,
    taskListAll := none, nodeList := none }

/-- A swarm-active pass whose node list holds a single non-ready node. -/
def apiDownNode : DockerAPI :=
  { containerList := none, info := some "active", serviceList := none,
    taskListFor := fun _ => none, taskListAll := some [],
    nodeList := some [⟨"n2", "h2", "down"⟩] }

/-- A swarm-active pass with a service whose replica target is absent, and
a failing task listing for a second service. -/
def apiOdd : DockerAPI :=
  { containerList := none, info := some "active",
    serviceList := some [svcOdd, svcWeb],
    taskListFor := fun sid => if sid = "s3" then some [] else none,
    taskListAll := none, nodeList := some nsMixed }

/-! Helper lemmas. -/

theorem classifyContainer_sum (acc : Nat × Nat × Nat) (c : ContainerRec)
    (h : c.state = "running" ∨ c.state = "exited" ∨ c.state = "created" ∨
      c.state = "dead" ∨ c.state = "paused") :
    bucketSum (classifyContainer acc c) = bucketSum acc + 1 := by
  rcases h with h | h | h | h | h <;>
    simp [classifyContainer, h, bucketSum] <;> omega

theorem containerBuckets_sum_go (cs : List ContainerRec) :
    ∀ acc : Nat × Nat × Nat,
      (∀ c ∈ cs, c.state = "running" ∨ c.state = "exited" ∨ c.state = "created" ∨
        c.state = "dead" ∨ c.state = "paused") →
      bucketSum (cs.foldl classifyContainer acc) = bucketSum acc + cs.length := by
  induction cs with
  | nil => intro acc _; simp
  | cons c cs ih =>
    intro acc h
    have hc := h c (List.mem_cons_self c cs)
    have htail : ∀ x ∈ cs, x.state = "running" ∨ x.state = "exited" ∨
        x.state = "created" ∨ x.state = "dead" ∨ x.state = "paused" :=
      fun x hx => h x (List.mem_cons_of_mem c hx)
    have := ih (classifyContainer acc c) htail
    simp only [List.foldl_cons, List.length_cons]
    rw [this, classifyContainer_sum acc c hc]
    omega

theorem keys_setKey {β : Type} (l : List (String × β)) (k : String) (v : β) :
    (setKey l k v).map Prod.fst = insertKey (l.map Prod.fst) k := by
  induction l with
  | nil => simp [setKey, insertKey]
  | cons p rest ih =>
    obtain ⟨k0, v0⟩ := p
    by_cases hk : k0 = k
    · subst hk
      simp [setKey, insertKey]
    · simp only [setKey, if_neg hk, List.map_cons, ih]
      unfold insertKey
      by_cases hmem : k ∈ rest.map Prod.fst
      · simp [hmem]
      · have hne : ¬ k ∈ k0 :: rest.map Prod.fst := by
          simp only [List.mem_cons]
          rintro (rfl | hc)
          · exact hk rfl
          · exact hmem hc
        simp [hmem, hne]

theorem keys_bumpKey (l : List (String × Nat)) (k : String) :
    (bumpKey l k).map Prod.fst = l.map Prod.fst := by
  induction l with
  | nil => rfl
  | cons p rest ih =>
    obtain ⟨k0, v0⟩ := p
    by_cases hk : k0 = k <;> simp [bumpKey, hk, ih]

theorem length_bumpKey (l : List (String × Nat)) (k : String) :
    (bumpKey l k).length = l.length := by
  induction l with
  | nil => rfl
  | cons p rest ih =>
    obtain ⟨k0, v0⟩ := p
    by_cases hk : k0 = k <;> simp [bumpKey, hk, ih]

theorem lookupAssoc_isSome_iff {β : Type} (l : List (String × β)) (k : String) :
    (lookupAssoc l k).isSome ↔ k ∈ l.map Prod.fst := by
  induction l with
  | nil => simp [lookupAssoc]
  | cons p rest ih =>
    obtain ⟨k0, v0⟩ := p
    by_cases hk : k0 = k
    · subst hk; simp [lookupAssoc]
    · simp [lookupAssoc, hk, ih, Ne.symm hk]

theorem keys_stepRun (C : List (String × Nat)) (t : TaskRec) :
    (stepRun C t).map Prod.fst = C.map Prod.fst := by
  unfold stepRun
  by_cases hr : t.state = "running"
  · simp only [if_pos hr]
    cases h : lookupAssoc C t.nodeID with
    | none => rfl
    | some v => simp [keys_bumpKey]
  · simp [hr]

theorem length_stepRun (C : List (String × Nat)) (t : TaskRec) :
    (stepRun C t).length = C.length := by
  unfold stepRun
  by_cases hr : t.state = "running"
  · simp only [if_pos hr]
    cases h : lookupAssoc C t.nodeID with
    | none => rfl
    | some v => simp [length_bumpKey]
  · simp [hr]

theorem countRunningPerNode_cons (C : List (String × Nat)) (t : TaskRec)
    (ts : List TaskRec) :
    countRunningPerNode C (t :: ts) = countRunningPerNode (stepRun C t) ts := rfl

theorem keys_countRunningPerNode (ts : List TaskRec) :
    ∀ C : List (String × Nat),
      (countRunningPerNode C ts).map Prod.fst = C.map Prod.fst := by
  induction ts with
  | nil => intro C; rfl
  | cons t ts ih =>
    intro C
    rw [countRunningPerNode_cons, ih, keys_stepRun]

theorem length_countRunningPerNode (ts : List TaskRec) :
    ∀ C : List (String × Nat),
      (countRunningPerNode C ts).length = C.length := by
  induction ts with
  | nil => intro C; rfl
  | cons t ts ih =>
    intro C
    rw [countRunningPerNode_cons, ih, length_stepRun]

theorem mem_insertKey (ks : List String) (k y : String) :
    y ∈ insertKey ks k ↔ y ∈ ks ∨ y = k := by
  unfold insertKey
  by_cases h : k ∈ ks
  · simp only [if_pos h]
    constructor
    · exact Or.inl
    · rintro (hy | rfl)
      · exact hy
      · exact h
  · simp [if_neg h]

theorem nodup_insertKey (ks : List String) (k : String) (h : ks.Nodup) :
    (insertKey ks k).Nodup := by
  unfold insertKey
  by_cases hk : k ∈ ks
  · simpa [hk]
  · simp only [if_neg hk]
    rw [List.nodup_append]
    refine ⟨h, List.nodup_singleton k, ?_⟩
    intro a ha hak
    rw [List.mem_singleton] at hak
    subst hak
    exact hk ha

theorem insertAll_cons (acc : List String) (x : String) (xs : List String) :
    insertAll acc (x :: xs) = insertAll (insertKey acc x) xs := rfl

theorem mem_insertAll (xs : List String) :
    ∀ (acc : List String) (y : String), y ∈ insertAll acc xs ↔ y ∈ acc ∨ y ∈ xs := by
  induction xs with
  | nil => intro acc y; simp [insertAll]
  | cons x xs ih =>
    intro acc y
    rw [insertAll_cons, ih, mem_insertKey]
    simp [List.mem_cons, or_assoc]

theorem nodup_insertAll (xs : List String) :
    ∀ acc : List String, acc.Nodup → (insertAll acc xs).Nodup := by
  induction xs with
  | nil => intro acc h; exact h
  | cons x xs ih =>
    intro acc h
    rw [insertAll_cons]
    exact ih _ (nodup_insertKey acc x h)

theorem length_insertAll_nil (xs : List String) :
    (insertAll [] xs).length = xs.toFinset.card := by
  have hnodup : (insertAll [] xs).Nodup := nodup_insertAll xs [] List.nodup_nil
  have hset : (insertAll [] xs).toFinset = xs.toFinset := by
    ext y
    simp [List.mem_toFinset, mem_insertAll]
  rw [← List.toFinset_card_of_nodup hnodup, hset]

theorem stackMapKeys_go (ss : List ServiceRec) :
    ∀ acc : List String,
      ss.foldl
        (fun acc s =>
          match stackLabel s with
          | some stackName => insertKey acc stackName
          | none => acc) acc = insertAll acc (ss.filterMap stackLabel) := by
  induction ss with
  | nil => intro acc; rfl
  | cons s ss ih =>
    intro acc
    cases h : stackLabel s with
    | none =>
      simp only [List.foldl_cons, h, List.filterMap_cons, ih]
    | some v =>
      simp only [List.foldl_cons, h, List.filterMap_cons, ih, insertAll_cons]

theorem stackMapKeys_eq (ss : List ServiceRec) :
    stackMapKeys ss = insertAll [] (ss.filterMap stackLabel) := by
  unfold stackMapKeys
  exact stackMapKeys_go ss []

theorem stackMapKeys_length (ss : List ServiceRec) :
    (stackMapKeys ss).length = (ss.filterMap stackLabel).toFinset.card := by
  rw [stackMapKeys_eq, length_insertAll_nil]

theorem keys_initGo (ns : List NodeRec) :
    ∀ acc : List (String × Nat),
      ((ns.foldl (fun acc n => setKey acc n.id 0) acc).map Prod.fst) =
        insertAll (acc.map Prod.fst) (ns.map (fun n => n.id)) := by
  induction ns with
  | nil => intro acc; rfl
  | cons n ns ih =>
    intro acc
    simp only [List.foldl_cons, List.map_cons, insertAll_cons]
    rw [ih, keys_setKey]

theorem keys_initNodeCounters (ns : List NodeRec) :
    (initNodeCounters ns).map Prod.fst = insertAll [] (ns.map (fun n => n.id)) := by
  unfold initNodeCounters
  rw [keys_initGo]
  rfl

theorem length_initNodeCounters (ns : List NodeRec) :
    (initNodeCounters ns).length = (ns.map (fun n => n.id)).toFinset.card := by
  have h1 : (initNodeCounters ns).length = ((initNodeCounters ns).map Prod.fst).length := by
    simp
  rw [h1, keys_initNodeCounters, length_insertAll_nil]

theorem values_setKey_zero (l : List (String × Nat)) (k : String)
    (h : ∀ p ∈ l, p.2 = 0) : ∀ p ∈ setKey l k 0, p.2 = 0 := by
  induction l with
  | nil =>
    intro p hp
    simp [setKey] at hp
    rw [hp]
  | cons q rest ih =>
    obtain ⟨k0, v0⟩ := q
    intro p hp
    by_cases hk : k0 = k
    · rw [setKey, if_pos hk] at hp
      rcases List.mem_cons.mp hp with rfl | hp'
      · rfl
      · exact h p (List.mem_cons_of_mem _ hp')
    · rw [setKey, if_neg hk] at hp
      rcases List.mem_cons.mp hp with rfl | hp'
      · exact h (k0, v0) (List.mem_cons_self _ _)
      · exact ih (fun q hq => h q (List.mem_cons_of_mem _ hq)) p hp'

theorem values_initGo_zero (ns : List NodeRec) :
    ∀ acc : List (String × Nat), (∀ p ∈ acc, p.2 = 0) →
      ∀ p ∈ ns.foldl (fun acc n => setKey acc n.id 0) acc, p.2 = 0 := by
  induction ns with
  | nil => intro acc h; exact h
  | cons n ns ih =>
    intro acc h
    exact ih _ (values_setKey_zero acc n.id h)

theorem lookupAssoc_eq_zero (l : List (String × Nat)) (k : String)
    (hvals : ∀ p ∈ l, p.2 = 0) (hmem : k ∈ l.map Prod.fst) :
    lookupAssoc l k = some 0 := by
  induction l with
  | nil => simp at hmem
  | cons p rest ih =>
    obtain ⟨k0, v0⟩ := p
    by_cases hk : k0 = k
    · have hv : v0 = 0 := hvals (k0, v0) (List.mem_cons_self _ _)
      simp [lookupAssoc, hk, hv]
    · have hmem' : k ∈ rest.map Prod.fst := by
        rcases List.mem_cons.mp hmem with h | h
        · exact absurd h.symm hk
        · exact h
      rw [lookupAssoc, if_neg hk]
      exact ih (fun q hq => hvals q (List.mem_cons_of_mem _ hq)) hmem'

theorem initNodeCounters_lookup_zero (ns : List NodeRec) (n : NodeRec) (hn : n ∈ ns) :
    lookupAssoc (initNodeCounters ns) n.id = some 0 := by
  apply lookupAssoc_eq_zero
  · exact values_initGo_zero ns [] (by simp)
  · rw [keys_initNodeCounters, mem_insertAll]
    exact Or.inr (List.mem_map.mpr ⟨n, hn, rfl⟩)

theorem countRunningPerNode_filter_known (K : List String) (ts : List TaskRec) :
    ∀ C : List (String × Nat), C.map Prod.fst = K →
      countRunningPerNode C ts =
        countRunningPerNode C (ts.filter (fun t => decide (t.nodeID ∈ K))) := by
  induction ts with
  | nil => intro C _; rfl
  | cons t ts ih =>
    intro C hK
    by_cases hmem : t.nodeID ∈ K
    · have hfilter : (t :: ts).filter (fun t => decide (t.nodeID ∈ K)) =
          t :: ts.filter (fun t => decide (t.nodeID ∈ K)) := by
        simp [List.filter_cons, hmem]
      rw [countRunningPerNode_cons, hfilter, countRunningPerNode_cons]
      exact ih (stepRun C t) (by rw [keys_stepRun]; exact hK)
    · have hC : stepRun C t = C := by
        unfold stepRun
        by_cases hr : t.state = "running"
        · simp only [if_pos hr]
          have hnone : lookupAssoc C t.nodeID = none := by
            cases h : lookupAssoc C t.nodeID with
            | none => rfl
            | some v =>
              exfalso
              apply hmem
              rw [← hK]
              exact (lookupAssoc_isSome_iff C t.nodeID).mp (by rw [h]; rfl)
          rw [hnone]
        · simp [hr]
      have hfilter : (t :: ts).filter (fun t => decide (t.nodeID ∈ K)) =
          ts.filter (fun t => decide (t.nodeID ∈ K)) := by
        simp [List.filter_cons, hmem]
      rw [countRunningPerNode_cons, hC, hfilter]
      exact ih C hK

theorem filter_of_names {l : List Sample} {p : Sample → Bool}
    (h : ∀ x ∈ l, p x = false) : l.filter p = [] := by
  apply List.filter_eq_nil_iff.mpr
  intro a ha
  simp [h a ha]

theorem name_mem_containerPart (resp : Option (List ContainerRec)) (x : Sample)
    (hx : x ∈ collectContainerMetrics resp) :
    x.name = "docker_containers_running_total" ∨
      x.name = "docker_containers_stopped_total" ∨
      x.name = "docker_containers_paused_total" := by
  cases resp with
  | none => simp [collectContainerMetrics] at hx
  | some cs =>
    simp only [collectContainerMetrics, List.mem_cons, List.not_mem_nil, or_false] at hx
    rcases hx with rfl | rfl | rfl
    · left; rfl
    · right; left; rfl
    · right; right; rfl

theorem name_mem_imagePart (x : Sample) (hx : x ∈ collectImageMetrics) :
    x.name = "docker_images_total" := by
  simp only [collectImageMetrics, List.mem_cons, List.not_mem_nil, or_false] at hx
  rw [hx]

theorem name_mem_servicesPart (api : DockerAPI) (x : Sample) (hx : x ∈ servicesPart api) :
    x.name = "docker_services_total" ∨ x.name = "docker_tasks_running_total" ∨
      x.name = "docker_tasks_desired_total" := by
  unfold servicesPart at hx
  cases hs : api.serviceList with
  | none => rw [hs] at hx; simp at hx
  | some ss =>
    rw [hs] at hx
    rcases List.mem_cons.mp hx with rfl | hmem
    · left; rfl
    · obtain ⟨s, _, hin⟩ := List.mem_flatMap.mp hmem
      unfold serviceSamples at hin
      cases ht : api.taskListFor s.id with
      | none => rw [ht] at hin; simp at hin
      | some ts =>
        rw [ht] at hin
        simp only [List.mem_cons, List.not_mem_nil, or_false] at hin
        rcases hin with rfl | rfl
        · right; left; rfl
        · right; right; rfl

theorem name_mem_nodesPart (resp : Option (List NodeRec)) (x : Sample)
    (hx : x ∈ nodesPart resp) :
    x.name = "docker_nodes_total" ∨ x.name = "docker_nodes_active_total" := by
  cases resp with
  | none => simp [nodesPart] at hx
  | some ns =>
    simp only [nodesPart, List.mem_cons, List.not_mem_nil, or_false] at hx
    rcases hx with rfl | rfl
    · left; rfl
    · right; rfl

theorem name_mem_stacksPart (ss : List ServiceRec) (x : Sample)
    (hx : x ∈ stacksPart ss) : x.name = "docker_stacks_total" := by
  simp only [stacksPart, List.mem_cons, List.not_mem_nil, or_false] at hx
  rw [hx]

theorem name_mem_allNodesPart (api : DockerAPI) (x : Sample)
    (hx : x ∈ allNodesPart api) :
    x.name = "docker_containers_running_total_all_nodes" ∨
      x.name = "docker_containers_running_all_nodes_total" := by
  simp only [allNodesPart] at hx
  split at hx
  · split at hx
    · simp at hx
    · rcases List.mem_cons.mp hx with rfl | hmem
      · left; rfl
      · obtain ⟨p, _, rfl⟩ := List.mem_map.mp hmem
        right; rfl
  · simp at hx

/-! Claim theorems. -/

/-- C1 (counterexample): a container in state `restarting` — a state the
daemon can report but the classification switch does not recognise — lands
in none of the three buckets, so the bucket counts do not sum to the list
length. -/
theorem C1_counterexample :
    ¬ bucketSum (containerBuckets [⟨"restarting"⟩]) =
        ([⟨"restarting"⟩] : List ContainerRec).length := by
  decide

/-- C1 (amended): when every listed container is in one of the recognised
states (running / exited / created / dead / paused), the three emitted gauge
values partition the list: they sum to its length.  Containers in any other
state fall into no bucket, so for them the partition fails. -/
theorem C1_amended (cs : List ContainerRec)
    (h : ∀ c ∈ cs, c.state = "running" ∨ c.state = "exited" ∨ c.state = "created" ∨
      c.state = "dead" ∨ c.state = "paused") :
    ((collectContainerMetrics (some cs)).map (fun x => x.value)).sum = cs.length := by
  have hsum := containerBuckets_sum_go cs (0, 0, 0) h
  simp [collectContainerMetrics, bucketSum, containerBuckets] at hsum ⊢
  omega

/-- C1 witness: the amended claim at the spec's five-container scenario. -/
theorem C1_amended_witness :
    ((collectContainerMetrics (some cList5)).map (fun x => x.value)).sum = cList5.length :=
  C1_amended cList5 (by decide)

/-- C2 (counterexample): in a pass whose container listing fails, the
image gauge — a sample emitted after the container step — is still present
in the output, so the pass is not abandoned. -/
theorem C2_counterexample :
    apiFail.containerList = none ∧
      Sample.mk "docker_images_total" [] 0 ∈ Collect apiFail := by
  decide

/-- C2 (amended): a container-listing failure is logged and suppresses only
the three container gauges; `Collect` continues, still emits the image
sample, and still runs the info check and swarm collection. -/
theorem C2_amended (api : DockerAPI) (h : api.containerList = none) :
    Collect api = collectImageMetrics ++ swarmGate api ∧
      Sample.mk "docker_images_total" [] 0 ∈ Collect api := by
  refine ⟨?_, ?_⟩
  · simp [Collect, h, collectContainerMetrics]
  · simp [Collect, collectImageMetrics]

/-- C2 witness: the amended claim at the all-failures pass. -/
theorem C2_amended_witness :
    Collect apiFail = collectImageMetrics ++ swarmGate apiFail ∧
      Sample.mk "docker_images_total" [] 0 ∈ Collect apiFail :=
  C2_amended apiFail rfl

theorem mem_collect_of_swarm (api : DockerAPI) (x : Sample)
    (hi : api.info = some "active") (hx : x ∈ collectSwarmMetrics api) :
    x ∈ Collect api := by
  simp [Collect, swarmGate, hi, hx]

theorem mem_swarm_of_service (api : DockerAPI) (ss : List ServiceRec) (s : ServiceRec)
    (x : Sample) (hs : api.serviceList = some ss) (hmem : s ∈ ss)
    (hx : x ∈ serviceSamples api s) : x ∈ collectSwarmMetrics api := by
  have hsp : x ∈ servicesPart api := by
    simp only [servicesPart, hs, List.mem_cons]
    exact Or.inr (List.mem_flatMap.mpr ⟨s, hmem, hx⟩)
  simp [collectSwarmMetrics, hsp]

/-- C4: for a service declared in global mode (a present `Global` pointer,
no `Replicated` pointer), when the per-service node listing succeeds with
list `ns`, the emitted `docker_tasks_desired_total` sample for that service
carries the number of ready nodes of `ns`.  The task list `ts` is
universally quantified, so the value is independent of its contents. -/
theorem C4_global_desired (api : DockerAPI) (ss : List ServiceRec) (s : ServiceRec)
    (ns : List NodeRec) (ts : List TaskRec)
    (hi : api.info = some "active") (hs : api.serviceList = some ss) (hmem : s ∈ ss)
    (ht : api.taskListFor s.id = some ts)
    (hrep : s.mode.replicated = none) (hglob : s.mode.globalMode = true)
    (hn : api.nodeList = some ns) :
    Sample.mk "docker_tasks_desired_total" [s.name] (countReadyNodes ns) ∈ Collect api := by
  apply mem_collect_of_swarm api _ hi
  apply mem_swarm_of_service api ss s _ hs hmem
  simp [serviceSamples, ht, desiredReplicas, hrep, hglob, hn]

/-- C4 witness: the global service `cache` over one ready node of two. -/
theorem C4_global_desired_witness :
    Sample.mk "docker_tasks_desired_total" ["cache"] (countReadyNodes nsMixed) ∈
      Collect apiMain :=
  C4_global_desired apiMain [svcWeb, svcCache] svcCache nsMixed
    [⟨"s2", "n1", "running"⟩] rfl rfl (by decide) rfl rfl rfl rfl

/-- C5: for a service declared replicated with a present replica target
`n`, the emitted `docker_tasks_desired_total` sample carries `n` verbatim;
`api.nodeList` is universally quantified, so the value is independent of
how many nodes exist or are ready. -/
theorem C5_replicated_desired (api : DockerAPI) (ss : List ServiceRec) (s : ServiceRec)
    (ts : List TaskRec) (n : Nat)
    (hi : api.info = some "active") (hs : api.serviceList = some ss) (hmem : s ∈ ss)
    (ht : api.taskListFor s.id = some ts)
    (hrep : s.mode.replicated = some ⟨some n⟩) :
    Sample.mk "docker_tasks_desired_total" [s.name] n ∈ Collect api := by
  apply mem_collect_of_swarm api _ hi
  apply mem_swarm_of_service api ss s _ hs hmem
  simp [serviceSamples, ht, desiredReplicas, hrep]

/-- C5 witness: the replicated service `web` with target 3. -/
theorem C5_replicated_desired_witness :
    Sample.mk "docker_tasks_desired_total" ["web"] 3 ∈ Collect apiMain :=
  C5_replicated_desired apiMain [svcWeb, svcCache] svcWeb
    [⟨"s1", "n1", "running"⟩, ⟨"s1", "n1", "shutdown"⟩] 3
    rfl rfl (by decide) rfl rfl

/-- C6 (counterexample): in a pass whose node listing fails, the global
service `cache` suffers a fetch failure inside its loop iteration (the
node listing of the global branch), yet it is not skipped: both of its
samples are still emitted (with desired 0). -/
theorem C6_counterexample :
    apiNoNodes.nodeList = none ∧ svcCache.mode.globalMode = true ∧
      Sample.mk "docker_tasks_running_total" ["cache"] 0 ∈ Collect apiNoNodes ∧
      Sample.mk "docker_tasks_desired_total" ["cache"] 0 ∈ Collect apiNoNodes := by
  decide

/-- C6 (amended): a task-listing failure for a service is the failure that
skips it — that service contributes no samples, and the loop output over
the surrounding services is exactly the output over the others.  (A node
listing failure in the global branch does not skip the service; it yields
a desired value of 0 instead.) -/
theorem C6_amended (api : DockerAPI) (pre post : List ServiceRec) (s : ServiceRec)
    (h : api.taskListFor s.id = none) :
    serviceSamples api s = [] ∧
      (pre ++ s :: post).flatMap (serviceSamples api) =
        pre.flatMap (serviceSamples api) ++ post.flatMap (serviceSamples api) := by
  have hempty : serviceSamples api s = [] := by simp [serviceSamples, h]
  exact ⟨hempty, by simp [hempty]⟩

/-- C6 witness: in `apiOdd` the task listing for `web` fails, so `web` is
skipped while its predecessor `odd` is still processed. -/
theorem C6_amended_witness :
    serviceSamples apiOdd svcWeb = [] ∧
      ([svcOdd] ++ svcWeb :: []).flatMap (serviceSamples apiOdd) =
        [svcOdd].flatMap (serviceSamples apiOdd) ++
          ([] : List ServiceRec).flatMap (serviceSamples apiOdd) :=
  C6_amended apiOdd [svcOdd] [] svcWeb rfl

/-- C10: a service that reaches the desired-replica computation (its task
listing succeeded) still gets a `docker_tasks_desired_total` sample of 0
when either its replicated pointer is present but carries no target (and no
global pointer is set), or it is global and the node listing fails. -/
theorem C10_zero_desired (api : DockerAPI) (ss : List ServiceRec) (s : ServiceRec)
    (ts : List TaskRec)
    (hi : api.info = some "active") (hs : api.serviceList = some ss) (hmem : s ∈ ss)
    (ht : api.taskListFor s.id = some ts)
    (h : (s.mode.replicated = some ⟨none⟩ ∧ s.mode.globalMode = false) ∨
      (s.mode.globalMode = true ∧ s.mode.replicated.bind (fun r => r.replicas) = none ∧
        api.nodeList = none)) :
    Sample.mk "docker_tasks_desired_total" [s.name] 0 ∈ Collect api := by
  apply mem_collect_of_swarm api _ hi
  apply mem_swarm_of_service api ss s _ hs hmem
  rcases h with ⟨h1, h2⟩ | ⟨h1, h2, h3⟩
  · simp [serviceSamples, ht, desiredReplicas, h1, h2]
  · simp [serviceSamples, ht, desiredReplicas, h1, h2, h3]

/-- C10 witness: the service `odd`, replicated with an absent target,
still receives a desired sample of 0. -/
theorem C10_zero_desired_witness :
    Sample.mk "docker_tasks_desired_total" ["odd"] 0 ∈ Collect apiOdd :=
  C10_zero_desired apiOdd [svcOdd, svcWeb] svcOdd [] rfl rfl (by decide) rfl
    (Or.inl ⟨rfl, rfl⟩)

theorem allNodesPart_eq (api : DockerAPI) (ns : List NodeRec) (ts : List TaskRec)
    (hn : api.nodeList = some ns) (ht : api.taskListAll = some ts)
    (hpos : 0 < ns.length) :
    allNodesPart api =
      (⟨"docker_containers_running_total_all_nodes", [],
        ((countRunningPerNode (initNodeCounters ns) ts).map (fun p => p.2)).sum⟩ : Sample) ::
      (countRunningPerNode (initNodeCounters ns) ts).map
        (fun p =>
          (⟨"docker_containers_running_all_nodes_total",
            [p.1, (lookupAssoc (initNodeNames ns) p.1).getD ""], p.2⟩ : Sample)) := by
  simp [allNodesPart, hn, ht, hpos]

theorem filter_allNodesPart_total (api : DockerAPI) (ns : List NodeRec) (ts : List TaskRec)
    (hn : api.nodeList = some ns) (ht : api.taskListAll = some ts)
    (hpos : 0 < ns.length) :
    (allNodesPart api).filter (fun x =>
        decide (x.name = "docker_containers_running_total_all_nodes")) =
      [⟨"docker_containers_running_total_all_nodes", [],
        ((countRunningPerNode (initNodeCounters ns) ts).map (fun p => p.2)).sum⟩] := by
  rw [allNodesPart_eq api ns ts hn ht hpos, List.filter_cons]
  have htail : ((countRunningPerNode (initNodeCounters ns) ts).map
      (fun p =>
        (⟨"docker_containers_running_all_nodes_total",
          [p.1, (lookupAssoc (initNodeNames ns) p.1).getD ""], p.2⟩ : Sample))).filter
      (fun x => decide (x.name = "docker_containers_running_total_all_nodes")) = [] := by
    apply filter_of_names
    intro x hx
    obtain ⟨p, _, rfl⟩ := List.mem_map.mp hx
    simp
  simp [htail]

theorem filter_allNodesPart_pernode (api : DockerAPI) (ns : List NodeRec) (ts : List TaskRec)
    (hn : api.nodeList = some ns) (ht : api.taskListAll = some ts)
    (hpos : 0 < ns.length) :
    (allNodesPart api).filter (fun x =>
        decide (x.name = "docker_containers_running_all_nodes_total")) =
      (countRunningPerNode (initNodeCounters ns) ts).map
        (fun p =>
          (⟨"docker_containers_running_all_nodes_total",
            [p.1, (lookupAssoc (initNodeNames ns) p.1).getD ""], p.2⟩ : Sample)) := by
  rw [allNodesPart_eq api ns ts hn ht hpos, List.filter_cons]
  have hkeep : ((countRunningPerNode (initNodeCounters ns) ts).map
      (fun p =>
        (⟨"docker_containers_running_all_nodes_total",
          [p.1, (lookupAssoc (initNodeNames ns) p.1).getD ""], p.2⟩ : Sample))).filter
      (fun x => decide (x.name = "docker_containers_running_all_nodes_total")) =
      (countRunningPerNode (initNodeCounters ns) ts).map
        (fun p =>
          (⟨"docker_containers_running_all_nodes_total",
            [p.1, (lookupAssoc (initNodeNames ns) p.1).getD ""], p.2⟩ : Sample)) := by
    apply List.filter_eq_self.mpr
    intro x hx
    obtain ⟨p, _, rfl⟩ := List.mem_map.mp hx
    simp
  simp [hkeep]

theorem filter_collect_swarm (api : DockerAPI) (hi : api.info = some "active")
    (p : Sample → Bool) :
    (Collect api).filter p =
      (collectContainerMetrics api.containerList).filter p ++
        collectImageMetrics.filter p ++ (servicesPart api).filter p ++
        (nodesPart api.nodeList).filter p ++
        (stacksPart ((api.serviceList).getD [])).filter p ++
        (allNodesPart api).filter p := by
  simp [Collect, swarmGate, hi, collectSwarmMetrics, List.filter_append]

/-- C3 (counterexample): with a node list holding a single non-ready node,
one per-node gauge is still emitted, so gauges are not "exactly per ready
node" (the ready-node count is 0). -/
theorem C3_counterexample :
    countReadyNodes ((apiDownNode.nodeList).getD []) = 0 ∧
      ((Collect apiDownNode).filter (fun x =>
          decide (x.name = "docker_containers_running_all_nodes_total"))).length = 1 := by
  decide

/-- C3 (amended): the per-node counter map is initialised to zero for every
node of the fetched node list — ready or not — so one labelled per-node
gauge is emitted per distinct node identity of that list; and every running
task whose owning node is absent from the list is excluded from the counts
(dropping such tasks leaves the counters unchanged; the pass, a total
function, never fails). -/
theorem C3_amended (api : DockerAPI) (ns : List NodeRec) (ts : List TaskRec)
    (hn : api.nodeList = some ns) (ht : api.taskListAll = some ts) (hne : ns ≠ []) :
    (ns.all fun n => lookupAssoc (initNodeCounters ns) n.id == some 0) = true ∧
      ((allNodesPart api).filter (fun x =>
          decide (x.name = "docker_containers_running_all_nodes_total"))).length =
        (ns.map (fun n => n.id)).toFinset.card ∧
      countRunningPerNode (initNodeCounters ns) ts =
        countRunningPerNode (initNodeCounters ns)
          (ts.filter (fun t => decide (t.nodeID ∈ ns.map (fun n => n.id)))) := by
  have hpos : 0 < ns.length := List.length_pos.mpr hne
  refine ⟨?_, ?_, ?_⟩
  · rw [List.all_eq_true]
    intro n hmem
    rw [beq_iff_eq]
    exact initNodeCounters_lookup_zero ns n hmem
  · rw [filter_allNodesPart_pernode api ns ts hn ht hpos, List.length_map,
      length_countRunningPerNode, length_initNodeCounters]
  · rw [countRunningPerNode_filter_known (insertAll [] (ns.map (fun n => n.id))) ts
      (initNodeCounters ns) (keys_initNodeCounters ns)]
    congr 1
    apply List.filter_congr
    intro t _
    rw [decide_eq_decide, mem_insertAll]
    simp

/-- C3 witness: the amended claim on the mixed two-node fixture with a task
owned by the unknown node `nX`. -/
theorem C3_amended_witness :
    (nsMixed.all fun n => lookupAssoc (initNodeCounters nsMixed) n.id == some 0) = true ∧
      ((allNodesPart apiMain).filter (fun x =>
          decide (x.name = "docker_containers_running_all_nodes_total"))).length =
        (nsMixed.map (fun n => n.id)).toFinset.card ∧
      countRunningPerNode (initNodeCounters nsMixed) tsMixed =
        countRunningPerNode (initNodeCounters nsMixed)
          (tsMixed.filter (fun t => decide (t.nodeID ∈ nsMixed.map (fun n => n.id)))) :=
  C3_amended apiMain nsMixed tsMixed rfl rfl (by decide)

/-- C7: the swarm pass emits exactly one `docker_stacks_total` sample, and
its value is the number of distinct stack-namespace label values across the
fetched services (services without the label contribute nothing); when the
service listing failed or returned no services the loop ranges over the
empty list, so the sample is still emitted with value 0. -/
theorem C7_stacks_count (api : DockerAPI) :
    (collectSwarmMetrics api).filter (fun x => decide (x.name = "docker_stacks_total")) =
      [⟨"docker_stacks_total", [],
        (((api.serviceList).getD []).filterMap stackLabel).toFinset.card⟩] := by
  unfold collectSwarmMetrics
  rw [List.filter_append, List.filter_append, List.filter_append]
  have h1 : (servicesPart api).filter
      (fun x => decide (x.name = "docker_stacks_total")) = [] := by
    apply filter_of_names
    intro x hx
    rcases name_mem_servicesPart api x hx with h | h | h <;> simp [h]
  have h2 : (nodesPart api.nodeList).filter
      (fun x => decide (x.name = "docker_stacks_total")) = [] := by
    apply filter_of_names
    intro x hx
    rcases name_mem_nodesPart _ x hx with h | h <;> simp [h]
  have h4 : (allNodesPart api).filter
      (fun x => decide (x.name = "docker_stacks_total")) = [] := by
    apply filter_of_names
    intro x hx
    rcases name_mem_allNodesPart api x hx with h | h <;> simp [h]
  rw [h1, h2, h4]
  simp [stacksPart, stackMapKeys_length]

/-- C8: whenever the per-node block runs (node list fetched non-empty, task
list fetched), the single `docker_containers_running_total_all_nodes` value
emitted by the pass equals the sum of the emitted per-node
`docker_containers_running_all_nodes_total` values, one per node of the
fetched node list. -/
theorem C8_total_eq_sum (api : DockerAPI) (ns : List NodeRec) (ts : List TaskRec)
    (hi : api.info = some "active") (hn : api.nodeList = some ns)
    (ht : api.taskListAll = some ts) (hne : ns ≠ []) :
    ((Collect api).filter (fun x =>
        decide (x.name = "docker_containers_running_total_all_nodes"))).map
          (fun x => x.value) =
      [(((Collect api).filter (fun x =>
          decide (x.name = "docker_containers_running_all_nodes_total"))).map
            (fun x => x.value)).sum] := by
  have hpos : 0 < ns.length := List.length_pos.mpr hne
  rw [filter_collect_swarm api hi, filter_collect_swarm api hi]
  have c1 : (collectContainerMetrics api.containerList).filter (fun x =>
      decide (x.name = "docker_containers_running_total_all_nodes")) = [] := by
    apply filter_of_names
    intro x hx
    rcases name_mem_containerPart _ x hx with h | h | h <;> simp [h]
  have c2 : collectImageMetrics.filter (fun x =>
      decide (x.name = "docker_containers_running_total_all_nodes")) = [] := by
    apply filter_of_names
    intro x hx
    simp [name_mem_imagePart x hx]
  have c3 : (servicesPart api).filter (fun x =>
      decide (x.name = "docker_containers_running_total_all_nodes")) = [] := by
    apply filter_of_names
    intro x hx
    rcases name_mem_servicesPart api x hx with h | h | h <;> simp [h]
  have c4 : (nodesPart api.nodeList).filter (fun x =>
      decide (x.name = "docker_containers_running_total_all_nodes")) = [] := by
    apply filter_of_names
    intro x hx
    rcases name_mem_nodesPart _ x hx with h | h <;> simp [h]
  have c5 : (stacksPart ((api.serviceList).getD [])).filter (fun x =>
      decide (x.name = "docker_containers_running_total_all_nodes")) = [] := by
    apply filter_of_names
    intro x hx
    simp [name_mem_stacksPart _ x hx]
  have d1 : (collectContainerMetrics api.containerList).filter (fun x =>
      decide (x.name = "docker_containers_running_all_nodes_total")) = [] := by
    apply filter_of_names
    intro x hx
    rcases name_mem_containerPart _ x hx with h | h | h <;> simp [h]
  have d2 : collectImageMetrics.filter (fun x =>
      decide (x.name = "docker_containers_running_all_nodes_total")) = [] := by
    apply filter_of_names
    intro x hx
    simp [name_mem_imagePart x hx]
  have d3 : (servicesPart api).filter (fun x =>
      decide (x.name = "docker_containers_running_all_nodes_total")) = [] := by
    apply filter_of_names
    intro x hx
    rcases name_mem_servicesPart api x hx with h | h | h <;> simp [h]
  have d4 : (nodesPart api.nodeList).filter (fun x =>
      decide (x.name = "docker_containers_running_all_nodes_total")) = [] := by
    apply filter_of_names
    intro x hx
    rcases name_mem_nodesPart _ x hx with h | h <;> simp [h]
  have d5 : (stacksPart ((api.serviceList).getD [])).filter (fun x =>
      decide (x.name = "docker_containers_running_all_nodes_total")) = [] := by
    apply filter_of_names
    intro x hx
    simp [name_mem_stacksPart _ x hx]
  rw [c1, c2, c3, c4, c5, d1, d2, d3, d4, d5,
    filter_allNodesPart_total api ns ts hn ht hpos,
    filter_allNodesPart_pernode api ns ts hn ht hpos]
  simp only [List.nil_append, List.map_cons, List.map_nil, List.map_map]
  rfl

/-- C8 witness: the mixed fixture, where one running task lands on a known
node and one on an unknown node. -/
theorem C8_total_eq_sum_witness :
    ((Collect apiMain).filter (fun x =>
        decide (x.name = "docker_containers_running_total_all_nodes"))).map
          (fun x => x.value) =
      [(((Collect apiMain).filter (fun x =>
          decide (x.name = "docker_containers_running_all_nodes_total"))).map
            (fun x => x.value)).sum] :=
  C8_total_eq_sum apiMain nsMixed tsMixed rfl rfl rfl (by decide)

/-- C9: when the node listing of the node-metrics step fails, neither
`docker_nodes_total` nor `docker_nodes_active_total` appears anywhere in the
pass output (the step is skipped atomically, and the per-node block is also
empty), while the swarm output still consists of the service samples
emitted earlier followed by the stack sample. -/
theorem C9_node_failure (api : DockerAPI) (h : api.nodeList = none) :
    (Collect api).filter (fun x =>
        decide (x.name = "docker_nodes_total" ∨ x.name = "docker_nodes_active_total")) = [] ∧
      (api.info = some "active" →
        collectSwarmMetrics api =
          servicesPart api ++ stacksPart ((api.serviceList).getD [])) := by
  have hswarm : collectSwarmMetrics api =
      servicesPart api ++ stacksPart ((api.serviceList).getD []) := by
    simp [collectSwarmMetrics, nodesPart, allNodesPart, h]
  refine ⟨?_, fun _ => hswarm⟩
  unfold Collect
  rw [List.filter_append, List.filter_append]
  have h1 : (collectContainerMetrics api.containerList).filter (fun x =>
      decide (x.name = "docker_nodes_total" ∨ x.name = "docker_nodes_active_total")) = [] := by
    apply filter_of_names
    intro x hx
    rcases name_mem_containerPart _ x hx with hh | hh | hh <;> simp [hh]
  have h2 : collectImageMetrics.filter (fun x =>
      decide (x.name = "docker_nodes_total" ∨ x.name = "docker_nodes_active_total")) = [] := by
    apply filter_of_names
    intro x hx
    simp [name_mem_imagePart x hx]
  have h3 : (swarmGate api).filter (fun x =>
      decide (x.name = "docker_nodes_total" ∨ x.name = "docker_nodes_active_total")) = [] := by
    unfold swarmGate
    split
    · rfl
    · rename_i st heq
      by_cases hst : st = "active"
      · rw [if_pos hst, hswarm, List.filter_append]
        have hs1 : (servicesPart api).filter (fun x =>
            decide (x.name = "docker_nodes_total" ∨
              x.name = "docker_nodes_active_total")) = [] := by
          apply filter_of_names
          intro x hx
          rcases name_mem_servicesPart api x hx with hh | hh | hh <;> simp [hh]
        have hs2 : (stacksPart ((api.serviceList).getD [])).filter (fun x =>
            decide (x.name = "docker_nodes_total" ∨
              x.name = "docker_nodes_active_total")) = [] := by
          apply filter_of_names
          intro x hx
          simp [name_mem_stacksPart _ x hx]
        rw [hs1, hs2]
        rfl
      · rw [if_neg hst]
        rfl
  rw [h1, h2, h3]
  rfl

/-- C9 witness: the node-failure fixture with an active swarm and one
service; already-emitted service samples remain, node gauges are absent. -/
theorem C9_node_failure_witness :
    (Collect apiNoNodes).filter (fun x =>
        decide (x.name = "docker_nodes_total" ∨ x.name = "docker_nodes_active_total")) = [] ∧
      collectSwarmMetrics apiNoNodes =
        servicesPart apiNoNodes ++ stacksPart ((apiNoNodes.serviceList).getD []) :=
  ⟨(C9_node_failure apiNoNodes rfl).1, (C9_node_failure apiNoNodes rfl).2 rfl⟩

end DockerSwarmExporter
